import Mathlib

/-!
Shallow embedding of the ride-sharing service (utils.py, models.py,
service.py, and the Stage-3 additions in 1.1utils.py).

Modelling conventions:
* Python floats that only ever carry finitely representable data entered by
  callers (coordinates, ratings, earnings, mileage, fares passed to
  `complete_ride`) are embedded as `ℚ`; values produced by the transcendental
  haversine pipeline (`calculate_distance`, `_estimate_fare` and the fare and
  distance stored in a `Ride`) are embedded as `ℝ`.
* `float('inf')`, the initial accumulator of the two matching loops, is
  embedded as `(⊤ : EReal)`; finite distances are coerced into `EReal` for the
  comparison, exactly as the Python comparison `distance < min_distance`.
* `uuid.uuid4()` and `datetime.now()` are nondeterministic inputs of the
  program; they are embedded as explicit `id`/`now` arguments.
* Python raises exceptions; fallible operations return `Except PyError`.
  State-mutating service methods return the post-call state explicitly, and the
  error branch returns the state reached at the point the exception escapes.
* Objects shared by reference in Python (a `Ride` holds the same `Driver`
  object as the service's `_drivers` list) are embedded by composition; a
  mutation the source performs through one alias is recorded on the copy the
  property under verification observes.
* Status strings ("Pending", "Assigned", "In Progress", "Completed") are kept
  as the source's string literals.
-/

/-- Exceptions of utils.py: `ValueError` from `Location.__init__`,
`NoDriverFoundError` and `InvalidRequestError` from the service layer. -/
inductive PyError where
  | validationError
  | noDriverFound
  | invalidRequest
  deriving DecidableEq, Repr

/-- Location value object (utils.py lines 13-31): a latitude/longitude pair.
The range validation of `Location.__init__` lives in `Location.make` below. -/
structure Location where
  latitude : ℚ
  longitude : ℚ
  deriving DecidableEq, Repr

/-- Embeds `Location.__init__` (utils.py lines 15-20): the constructor raises
`ValueError` unless `-90 <= lat <= 90 and -180 <= lon <= 180`. -/
def Location.make (lat lon : ℚ) : Except PyError Location :=
  if -90 ≤ lat ∧ lat ≤ 90 ∧ -180 ≤ lon ∧ lon ≤ 180 then
    .ok { latitude := lat, longitude := lon }
  else
    .error .validationError

/-- Vehicle (models.py lines 105-122). -/
structure Vehicle where
  make : String
  model : String
  license_plate : String
  mileage : ℚ
  deriving DecidableEq, Repr

/-- Embeds `Vehicle.__init__` (models.py lines 107-111): mileage starts at 0. -/
def Vehicle.new (make model license_plate : String) : Vehicle :=
  { make := make, model := model, license_plate := license_plate, mileage := 0 }

/-- Embeds `Vehicle.add_mileage` (models.py lines 113-114). -/
def Vehicle.add_mileage (v : Vehicle) (distance : ℚ) : Vehicle :=
  { v with mileage := v.mileage + distance }

/-- Driver (models.py lines 38-79), with the `Person` base-class fields
inlined.  The `id` stands for the `uuid4` string. -/
structure Driver where
  id : ℕ
  name : String
  phone : String
  current_location : Location
  vehicle : Vehicle
  is_available : Bool
  rating : ℚ
  total_rides : ℕ
  earnings : ℚ
  deriving DecidableEq, Repr

/-- Embeds `Driver.__init__` (models.py lines 40-46): available, rating 5.0,
no rides, no earnings. -/
def Driver.new (id : ℕ) (name phone : String) (loc : Location) (v : Vehicle) : Driver :=
  { id := id, name := name, phone := phone, current_location := loc, vehicle := v,
    is_available := true, rating := 5, total_rides := 0, earnings := 0 }

/-- Embeds `Driver.set_availability` (models.py lines 56-58). -/
def Driver.set_availability (d : Driver) (status : Bool) : Driver :=
  { d with is_available := status }

/-- Embeds `Person.update_location` (models.py lines 30-33). -/
def Driver.update_location (d : Driver) (new_location : Location) : Driver :=
  { d with current_location := new_location }

/-- Embeds `Driver.complete_ride` (models.py lines 60-66): increment the ride
count, add the fare to earnings, fold the new rating into the running average
`(rating * (total_rides - 1) + new_rating) / total_rides` (with `total_rides`
already incremented), and become available again. -/
def Driver.complete_ride (d : Driver) (fare new_rating : ℚ) : Driver :=
  let total_rides := d.total_rides + 1
  let earnings := d.earnings + fare
  let rating := (d.rating * ((total_rides : ℚ) - 1) + new_rating) / (total_rides : ℚ)
  Driver.set_availability
    { d with total_rides := total_rides, earnings := earnings, rating := rating } true

/-- Passenger (models.py lines 84-100), `Person` fields inlined. -/
structure Passenger where
  id : ℕ
  name : String
  phone : String
  current_location : Location
  total_rides : ℕ
  deriving DecidableEq, Repr

/-- Embeds `Passenger.complete_ride` (models.py lines 90-91). -/
def Passenger.complete_ride (p : Passenger) : Passenger :=
  { p with total_rides := p.total_rides + 1 }

/-- RideRequest (models.py lines 127-172).  `timestamp` stands for
`datetime.now()` at construction. -/
structure RideRequest where
  id : ℕ
  passenger : Passenger
  pickup_loc : Location
  dropoff_loc : Location
  timestamp : ℕ
  status : String
  deriving DecidableEq, Repr

/-- Embeds `RideRequest.__init__` (models.py lines 129-135): status starts as
"Pending". -/
def RideRequest.new (id : ℕ) (p : Passenger) (pickup dropoff : Location) (now : ℕ) :
    RideRequest :=
  { id := id, passenger := p, pickup_loc := pickup, dropoff_loc := dropoff,
    timestamp := now, status := "Pending" }

/-- Embeds `RideRequest.set_status` (models.py lines 161-162). -/
def RideRequest.set_status (r : RideRequest) (status : String) : RideRequest :=
  { r with status := status }

/-- Earth radius constant of utils.py line 7. -/
noncomputable def EARTH_RADIUS_KM : ℝ := 6371

/-- Embeds `math.radians`: degrees to radians. -/
noncomputable def radians (x : ℝ) : ℝ := x * (Real.pi / 180)

/-- Embeds `math.atan2` with the C-library quadrant conventions (only the
`x > 0` branch and the symmetry of its arguments matter for the properties
proved below). -/
noncomputable def atan2 (y x : ℝ) : ℝ :=
  if 0 < x then Real.arctan (y / x)
  else if x < 0 then
    (if 0 ≤ y then Real.arctan (y / x) + Real.pi else Real.arctan (y / x) - Real.pi)
  else if 0 < y then Real.pi / 2
  else if y < 0 then -(Real.pi / 2)
  else 0

/-- Embeds `calculate_distance` (utils.py lines 36-48): haversine great-circle
distance in kilometres between two locations. -/
noncomputable def calculate_distance (loc1 loc2 : Location) : ℝ :=
  let lat1 := radians (loc1.latitude : ℝ)
  let lon1 := radians (loc1.longitude : ℝ)
  let lat2 := radians (loc2.latitude : ℝ)
  let lon2 := radians (loc2.longitude : ℝ)
  let dlon := lon2 - lon1
  let dlat := lat2 - lat1
  let a := Real.sin (dlat / 2) ^ 2 + Real.cos lat1 * Real.cos lat2 * Real.sin (dlon / 2) ^ 2
  let c := 2 * atan2 (Real.sqrt a) (Real.sqrt (1 - a))
  EARTH_RADIUS_KM * c

/-- Fare constant of service.py line 8: fare per km. -/
noncomputable def BASE_RATE : ℝ := 0.50

/-- Fare constant of service.py line 9: fare per minute. -/
noncomputable def TIME_RATE : ℝ := 0.20

/-- Fare constant of service.py line 10: starting fare. -/
noncomputable def BASE_FARE : ℝ := 2.50

open Classical in
/-- Round to the nearest integer, ties to the even neighbour: the rounding
rule of Python's built-in `round`. -/
noncomputable def roundHalfToEven (x : ℝ) : ℤ :=
  if x - ⌊x⌋ < 1 / 2 then ⌊x⌋
  else if 1 / 2 < x - ⌊x⌋ then ⌊x⌋ + 1
  else if Even ⌊x⌋ then ⌊x⌋ else ⌊x⌋ + 1

/-- Embeds Python's `round(x, 2)`: round to two decimal places, ties to
even. -/
noncomputable def pyRound2 (x : ℝ) : ℝ := (roundHalfToEven (x * 100) : ℝ) / 100

/-- Embeds `RideService._estimate_fare` (service.py lines 46-52):
`round(BASE_FARE + distance * BASE_RATE + estimated_time_min * TIME_RATE, 2)`
with `estimated_time_min = (distance / 30) * 60`. -/
noncomputable def estimate_fare (distance_km : ℝ) : ℝ :=
  let estimated_time_min := (distance_km / 30) * 60
  let fare := BASE_FARE + (distance_km * BASE_RATE) + (estimated_time_min * TIME_RATE)
  pyRound2 fare

/-- Ride (models.py lines 177-220).  `start_time` stands for `datetime.now()`
at construction; `end_time` is `None` until completion.  The `fare` and
`estimated_distance` come from the real-valued estimation pipeline. -/
structure Ride where
  id : ℕ
  request : RideRequest
  driver : Driver
  start_time : ℕ
  end_time : Option ℕ
  fare : ℝ
  estimated_distance : ℝ
  status : String

/-- Embeds `Ride.__init__` (models.py lines 179-187): no end time yet, status
"In Progress". -/
def Ride.new (id : ℕ) (request : RideRequest) (driver : Driver)
    (fare estimated_distance : ℝ) (now : ℕ) : Ride :=
  { id := id, request := request, driver := driver, start_time := now,
    end_time := none, fare := fare, estimated_distance := estimated_distance,
    status := "In Progress" }

/-- Embeds `Ride.complete` (models.py lines 201-208): stamp the end time, set
status "Completed", move the driver to the request's dropoff location, update
the driver's statistics, add the actual distance to the vehicle mileage, and
increment the passenger's ride count.  The driver and passenger are shared by
reference in the source; here their updates are recorded on the copies held
inside the ride. -/
def Ride.complete (r : Ride) (actual_distance final_fare rating : ℚ) (now : ℕ) : Ride :=
  let driver1 := r.driver.update_location r.request.dropoff_loc
  let driver2 := driver1.complete_ride final_fare rating
  let driver3 := { driver2 with vehicle := driver2.vehicle.add_mileage actual_distance }
  { r with
    end_time := some now,
    status := "Completed",
    driver := driver3,
    request := { r.request with passenger := r.request.passenger.complete_ride } }

/-- The collections owned by `RideService` (service.py lines 14-18). -/
structure ServiceState where
  drivers : List Driver
  passengers : List Passenger
  requests : List RideRequest
  rides : List Ride

/-- Embeds `RideService.__init__` (service.py lines 14-19): all collections
empty (`_load_initial_data` reads the JSON file but rebuilds no objects). -/
def ServiceState.empty : ServiceState :=
  { drivers := [], passengers := [], requests := [], rides := [] }

/-- Embeds `RideService.add_driver` (service.py lines 31-32). -/
def ServiceState.add_driver (s : ServiceState) (d : Driver) : ServiceState :=
  { s with drivers := s.drivers ++ [d] }

/-- Embeds `RideService.add_passenger` (service.py lines 34-35). -/
def ServiceState.add_passenger (s : ServiceState) (p : Passenger) : ServiceState :=
  { s with passengers := s.passengers ++ [p] }

open Classical in
/-- The scan of `RideService._find_nearest_driver` (service.py lines 67-71):
fold over the candidate drivers, keeping the driver whose distance to the
pickup is strictly below the accumulated minimum (initially `float('inf')`,
that is `⊤ : EReal`). -/
noncomputable def nearestLoop (pickup : Location) :
    List Driver → Option Driver × EReal → Option Driver × EReal
  | [], acc => acc
  | driver :: rest, acc =>
      let distance := calculate_distance driver.current_location pickup
      if (distance : EReal) < acc.2 then nearestLoop pickup rest (some driver, (distance : EReal))
      else nearestLoop pickup rest acc

/-- Embeds `RideService._find_nearest_driver` (service.py lines 55-73): filter
the available drivers, raise `NoDriverFoundError` when none remain, otherwise
scan for the nearest and return it with the accumulated minimal distance.
The `(none, _)` branch is unreachable (the scan always selects a driver from a
non-empty candidate list, proved below); the Python code would return `None`
there and crash in its caller, modelled as the same error. -/
noncomputable def find_nearest_driver (drivers : List Driver) (pickup_loc : Location) :
    Except PyError (Driver × ℝ) :=
  let available_drivers := drivers.filter (·.is_available)
  if available_drivers = [] then .error .noDriverFound
  else
    match nearestLoop pickup_loc available_drivers (none, ⊤) with
    | (some nearest, min_distance) => .ok (nearest, min_distance.toReal)
    | (none, _) => .error .noDriverFound

/-- Average-speed constant of `_optimized_driver_matching`
(1.1utils.py line 361): km per minute. -/
noncomputable def AVG_SPEED_KM_PER_MIN : ℝ := 0.5

open Classical in
/-- The scan of `RideService._optimized_driver_matching` (1.1utils.py lines
363-368): like `nearestLoop`, but the compared quantity is the estimated
arrival time `distance / AVG_SPEED_KM_PER_MIN`. -/
noncomputable def optimizedLoop (pickup : Location) :
    List Driver → Option Driver × EReal → Option Driver × EReal
  | [], acc => acc
  | driver :: rest, acc =>
      let dist := calculate_distance driver.current_location pickup
      let arrival_time := dist / AVG_SPEED_KM_PER_MIN
      if (arrival_time : EReal) < acc.2 then
        optimizedLoop pickup rest (some driver, (arrival_time : EReal))
      else optimizedLoop pickup rest acc

/-- Embeds `RideService._optimized_driver_matching` (1.1utils.py lines
354-370): filter the available drivers, fail when none remain, scan for the
minimal arrival time, and return the best driver together with its freshly
recomputed distance to the pickup.  As in `find_nearest_driver`, the `none`
branch is unreachable and models the crash the Python code would suffer
dereferencing `best_driver = None`. -/
noncomputable def optimized_driver_matching (drivers : List Driver) (request : RideRequest) :
    Except PyError (Driver × ℝ) :=
  let available_drivers := drivers.filter (·.is_available)
  if available_drivers = [] then .error .noDriverFound
  else
    match optimizedLoop request.pickup_loc available_drivers (none, ⊤) with
    | (some best, _) =>
        .ok (best, calculate_distance best.current_location request.pickup_loc)
    | (none, _) => .error .noDriverFound

/-- Embeds `RideService.request_ride` (service.py lines 76-85): raise
`InvalidRequestError` when pickup and dropoff coincide componentwise, else
create a Pending request, append it to the requests collection, and return it.
`reqId` and `now` stand for the fresh uuid and the construction timestamp. -/
def ServiceState.request_ride (s : ServiceState) (passenger : Passenger)
    (pickup_loc dropoff_loc : Location) (reqId now : ℕ) :
    ServiceState × Except PyError RideRequest :=
  if pickup_loc.latitude = dropoff_loc.latitude ∧ pickup_loc.longitude = dropoff_loc.longitude
  then (s, .error .invalidRequest)
  else
    let request := RideRequest.new reqId passenger pickup_loc dropoff_loc now
    ({ s with requests := s.requests ++ [request] }, .ok request)

/-- Embeds `RideService.assign_ride` (service.py lines 88-106): find the
nearest available driver (propagating `NoDriverFoundError` before any state
change), compute route distance and fare, create an In-Progress ride, append
it, flip the matched driver's availability and the request's status.
Python performs the last two mutations through shared references after the
`Ride` is built; the embedding stores the post-call values of the shared
driver and request both inside the new ride and in the collections. -/
noncomputable def ServiceState.assign_ride (s : ServiceState) (request : RideRequest)
    (rideId now : ℕ) : ServiceState × Except PyError Ride :=
  match find_nearest_driver s.drivers request.pickup_loc with
  | .error e => (s, .error e)
  | .ok (nearest_driver, _driver_distance) =>
      let ride_distance := calculate_distance request.pickup_loc request.dropoff_loc
      let fare := estimate_fare ride_distance
      let nearest' := nearest_driver.set_availability false
      let request' := request.set_status "Assigned"
      let new_ride := Ride.new rideId request' nearest' fare ride_distance now
      ({ s with
          rides := s.rides ++ [new_ride],
          drivers := s.drivers.map (fun d => if d.id = nearest_driver.id then nearest' else d),
          requests := s.requests.map (fun q => if q.id = request.id then request' else q) },
        .ok new_ride)

/-- Positional update of a list element: addresses the ride that
`RideService.complete_ride` receives by its index in the rides collection. -/
def modifyAt {α : Type} (f : α → α) : List α → ℕ → List α
  | [], _ => []
  | x :: rest, 0 => f x :: rest
  | x :: rest, n + 1 => x :: modifyAt f rest n

/-- Embeds `RideService.complete_ride` (service.py lines 109-112): delegate to
`Ride.complete` on the ride stored at index `i` of the rides collection (the
source passes the shared `Ride` object itself). -/
def ServiceState.complete_ride (s : ServiceState) (i : ℕ)
    (rating actual_distance final_fare : ℚ) (now : ℕ) : ServiceState :=
  { s with rides := modifyAt (fun r => r.complete actual_distance final_fare rating now) s.rides i }

/-- The figures computed by `RideService.generate_simple_analytics`
(service.py lines 134-148): the number of completed rides and the sum of their
stored fares.  The printed average trip duration only formats timestamps and
is not part of the report the claims observe. -/
structure AnalyticsReport where
  total_trips : ℕ
  total_fare : ℝ

/-- Embeds the aggregation of `RideService.generate_simple_analytics`
(service.py lines 136-138). -/
noncomputable def ServiceState.generate_simple_analytics (s : ServiceState) : AnalyticsReport :=
  let completed_rides := s.rides.filter (fun r => r.status == "Completed")
  { total_trips := completed_rides.length,
    total_fare := (completed_rides.map (fun r => r.fare)).sum }

/-- Concrete vehicle used by the closed witness statements. -/
def sampleVehicle : Vehicle := Vehicle.new "Fiat" "Egea" "34ABC123"

/-- Concrete passenger used by the closed witness statements. -/
def samplePassenger : Passenger :=
  { id := 7, name := "Ayse", phone := "555", current_location := { latitude := 41, longitude := 29 },
    total_rides := 0 }

/-- Concrete unavailable driver used by the closed witness statements. -/
def sampleBusyDriver : Driver :=
  { id := 1, name := "Ali", phone := "556", current_location := { latitude := 41, longitude := 29 },
    vehicle := sampleVehicle, is_available := false, rating := 5, total_rides := 0, earnings := 0 }

/-- Concrete available driver used by the closed witness statements. -/
def sampleFreeDriver : Driver := Driver.new 2 "Veli" "557" { latitude := 40, longitude := 29 } sampleVehicle

/-- Concrete pending ride request used by the closed witness statements. -/
def sampleRequest : RideRequest :=
  RideRequest.new 11 samplePassenger { latitude := 41, longitude := 29 }
    { latitude := 40, longitude := 30 } 0

/-- Concrete in-progress ride used by the closed witness statements.  Its
real-valued fare and estimated distance are fixed at 0. -/
noncomputable def sampleRide : Ride := Ride.new 21 sampleRequest sampleFreeDriver 0 0 3

/-- Concrete service state used by the closed witness statements: one
unavailable driver and nothing else. -/
def sampleBusyState : ServiceState :=
  { drivers := [sampleBusyDriver], passengers := [samplePassenger], requests := [sampleRequest],
    rides := [] }

/-- Componentwise characterisation of equality of locations. -/
theorem Location.eq_iff {a b : Location} :
    a = b ↔ a.latitude = b.latitude ∧ a.longitude = b.longitude := by
  constructor
  · rintro rfl; exact ⟨rfl, rfl⟩
  · rcases a with ⟨alat, alon⟩
    rcases b with ⟨blat, blon⟩
    rintro ⟨h1, h2⟩
    simp_all

/-- C7.  Coordinate construction fails with a validation error exactly when
the latitude is outside `[-90, 90]` or the longitude is outside `[-180, 180]`,
both boundaries inclusive: latitude 91 fails while latitudes -90 and 90
succeed, and no other validation is performed. -/
theorem location_make_validates_range :
    (∀ lat lon : ℚ, Location.make lat lon = .error .validationError ↔
      (lat < -90 ∨ 90 < lat ∨ lon < -180 ∨ 180 < lon)) ∧
    Location.make 91 0 = .error .validationError ∧
    Location.make (-90) 0 = .ok { latitude := -90, longitude := 0 } ∧
    Location.make 90 0 = .ok { latitude := 90, longitude := 0 } := by
  refine ⟨fun lat lon => ?_, rfl, rfl, rfl⟩
  unfold Location.make
  split_ifs with h
  · obtain ⟨h1, h2, h3, h4⟩ := h
    constructor
    · intro hc; exact absurd hc (by simp)
    · rintro (hb | hb | hb | hb) <;> linarith
  · constructor
    · intro _
      by_contra hno
      push_neg at hno
      obtain ⟨h1, h2, h3, h4⟩ := hno
      exact h ⟨by linarith, by linarith, by linarith, by linarith⟩
    · intro _; rfl

/-- C6.  A ride request fails with `InvalidRequestError` exactly when pickup
and dropoff coincide componentwise; on failure no collection is mutated, and
otherwise a Pending request is appended to the requests collection and
returned. -/
theorem request_ride_rejects_identical_endpoints (s : ServiceState) (p : Passenger)
    (a b : Location) (reqId now : ℕ) :
    ((s.request_ride p a b reqId now).2 = .error .invalidRequest ↔ a = b) ∧
    (a = b → (s.request_ride p a b reqId now).1 = s) ∧
    (a ≠ b → s.request_ride p a b reqId now =
      ({ s with requests := s.requests ++ [RideRequest.new reqId p a b now] },
        .ok (RideRequest.new reqId p a b now))) ∧
    (RideRequest.new reqId p a b now).status = "Pending" := by
  unfold ServiceState.request_ride
  by_cases hab : a = b
  · subst hab
    refine ⟨?_, ?_, ?_, rfl⟩
    · rw [if_pos ⟨rfl, rfl⟩]
      simp
    · intro _; rw [if_pos ⟨rfl, rfl⟩]
    · intro hne; exact absurd rfl hne
  · have hcond : ¬(a.latitude = b.latitude ∧ a.longitude = b.longitude) := by
      intro hc
      exact hab (Location.eq_iff.mpr hc)
    refine ⟨?_, ?_, ?_, rfl⟩
    · rw [if_neg hcond]
      simp [hab]
    · intro heq; exact absurd heq hab
    · intro _; rw [if_neg hcond]

/-- The banker-rounded value never strays more than one unit from the floor. -/
theorem roundHalfToEven_bounds (x : ℝ) :
    ⌊x⌋ ≤ roundHalfToEven x ∧ roundHalfToEven x ≤ ⌊x⌋ + 1 := by
  unfold roundHalfToEven
  split_ifs <;> omega

/-- Rounding ties to even is monotone. -/
theorem roundHalfToEven_mono {x y : ℝ} (hxy : x ≤ y) :
    roundHalfToEven x ≤ roundHalfToEven y := by
  have hbx := roundHalfToEven_bounds x
  have hby := roundHalfToEven_bounds y
  have hf : ⌊x⌋ ≤ ⌊y⌋ := Int.floor_le_floor hxy
  rcases eq_or_lt_of_le hf with heq | hlt
  · have hfrac : x - (⌊x⌋ : ℝ) ≤ y - (⌊y⌋ : ℝ) := by
      rw [← heq]; linarith
    unfold roundHalfToEven
    rw [← heq]
    split_ifs <;> first | omega | linarith
  · omega

/-- Rounding an integer leaves it unchanged. -/
theorem roundHalfToEven_intCast (n : ℤ) : roundHalfToEven (n : ℝ) = n := by
  unfold roundHalfToEven
  rw [Int.floor_intCast]
  rw [if_pos (by norm_num)]

/-- Python's two-decimal rounding is monotone. -/
theorem pyRound2_mono {x y : ℝ} (hxy : x ≤ y) : pyRound2 x ≤ pyRound2 y := by
  unfold pyRound2
  have h := roundHalfToEven_mono (mul_le_mul_of_nonneg_right hxy (by norm_num : (0:ℝ) ≤ 100))
  have h' : ((roundHalfToEven (x * 100) : ℤ) : ℝ) ≤ ((roundHalfToEven (y * 100) : ℤ) : ℝ) := by
    exact_mod_cast h
  linarith

/-- C4.  The fare estimator computes
`round(BASE_FARE + d * DISTANCE_RATE + ((d / 30) * 60) * TIME_RATE, 2)` with
the constants 2.50, 0.50 and 0.20; the fare at distance 0 is exactly 2.50, and
the fare is monotonically non-decreasing in the distance.  Being a total
function, it raises no error on any input. -/
theorem estimate_fare_spec (d : ℝ) (hd : 0 ≤ d) :
    estimate_fare d = pyRound2 (2.50 + d * 0.50 + ((d / 30) * 60) * 0.20) ∧
    estimate_fare 0 = 2.50 ∧
    (∀ d2 : ℝ, d ≤ d2 → estimate_fare d ≤ estimate_fare d2) := by
  refine ⟨rfl, ?_, ?_⟩
  · show pyRound2 (BASE_FARE + (0 * BASE_RATE) + (((0:ℝ) / 30) * 60) * TIME_RATE) = 2.50
    have harg : BASE_FARE + ((0:ℝ) * BASE_RATE) + (((0:ℝ) / 30) * 60) * TIME_RATE = 2.50 := by
      norm_num [BASE_FARE, BASE_RATE, TIME_RATE]
    rw [harg]
    unfold pyRound2
    have h250 : (2.50 : ℝ) * 100 = ((250 : ℤ) : ℝ) := by norm_num
    rw [h250, roundHalfToEven_intCast]
    norm_num
  · intro d2 hdd
    unfold estimate_fare
    apply pyRound2_mono
    have hrate : (0:ℝ) ≤ BASE_RATE := by norm_num [BASE_RATE]
    have htime : (0:ℝ) ≤ TIME_RATE := by norm_num [TIME_RATE]
    nlinarith

/-- Witness for the fare-estimator theorem at distance 0. -/
theorem estimate_fare_spec_witness :
    (0:ℝ) ≤ 0 ∧ estimate_fare 0 = 2.50 :=
  ⟨le_refl 0, (estimate_fare_spec 0 (le_refl 0)).2.1⟩

/-- Squared sine is insensitive to the order of the subtraction under it. -/
theorem sin_sq_sub_comm (x y : ℝ) :
    Real.sin ((x - y) / 2) ^ 2 = Real.sin ((y - x) / 2) ^ 2 := by
  rw [show (x - y) / 2 = -((y - x) / 2) by ring, Real.sin_neg, neg_sq]

/-- C9.  The haversine distance is zero on equal inputs and symmetric in its
two arguments. -/
theorem calculate_distance_zero_and_symm (a b : Location) :
    calculate_distance a a = 0 ∧ calculate_distance a b = calculate_distance b a := by
  constructor
  · norm_num [calculate_distance, atan2, Real.sin_zero, Real.sqrt_zero, Real.sqrt_one,
      Real.arctan_zero]
  · simp only [calculate_distance]
    congr 2
    rw [sin_sq_sub_comm (radians (b.latitude : ℝ)) (radians (a.latitude : ℝ)),
      sin_sq_sub_comm (radians (b.longitude : ℝ)) (radians (a.longitude : ℝ)),
      mul_comm (Real.cos (radians (a.latitude : ℝ))) (Real.cos (radians (b.latitude : ℝ)))]

/-- C3.  Completing an in-progress ride sets its status to Completed, stamps
the end time, moves the driver to the request's dropoff, restores the driver's
availability, increments the driver's ride count, adds the final fare to the
driver's earnings, recomputes the driver's rating by the running average
`(r * (n-1) + rating) / n` with `n` the post-increment ride count, adds the
actual distance to the vehicle mileage, and increments the passenger's trip
count. -/
theorem ride_complete_updates_all_parties (ride : Ride)
    (rating actual_distance final_fare : ℚ) (now : ℕ)
    (h : ride.status = "In Progress") :
    (ride.complete actual_distance final_fare rating now).status = "Completed" ∧
    (ride.complete actual_distance final_fare rating now).end_time = some now ∧
    (ride.complete actual_distance final_fare rating now).driver.current_location
      = ride.request.dropoff_loc ∧
    (ride.complete actual_distance final_fare rating now).driver.is_available = true ∧
    (ride.complete actual_distance final_fare rating now).driver.total_rides
      = ride.driver.total_rides + 1 ∧
    (ride.complete actual_distance final_fare rating now).driver.earnings
      = ride.driver.earnings + final_fare ∧
    (ride.complete actual_distance final_fare rating now).driver.rating
      = (ride.driver.rating * (ride.driver.total_rides : ℚ) + rating)
        / ((ride.driver.total_rides : ℚ) + 1) ∧
    (ride.complete actual_distance final_fare rating now).driver.vehicle.mileage
      = ride.driver.vehicle.mileage + actual_distance ∧
    (ride.complete actual_distance final_fare rating now).request.passenger.total_rides
      = ride.request.passenger.total_rides + 1 := by
  refine ⟨rfl, rfl, rfl, rfl, rfl, rfl, ?_, rfl, rfl⟩
  show (ride.driver.rating * (((ride.driver.total_rides + 1 : ℕ) : ℚ) - 1) + rating)
      / ((ride.driver.total_rides + 1 : ℕ) : ℚ) = _
  push_cast
  ring_nf

/-- Witness for the ride-completion theorem on a concrete in-progress ride. -/
theorem ride_complete_updates_all_parties_witness :
    sampleRide.status = "In Progress" ∧
    (sampleRide.complete 12 18 4 9).driver.total_rides = sampleRide.driver.total_rides + 1 ∧
    (sampleRide.complete 12 18 4 9).driver.rating
      = (sampleRide.driver.rating * (sampleRide.driver.total_rides : ℚ) + 4)
        / ((sampleRide.driver.total_rides : ℚ) + 1) :=
  ⟨rfl,
    (ride_complete_updates_all_parties sampleRide 4 12 18 9 rfl).2.2.2.2.1,
    (ride_complete_updates_all_parties sampleRide 4 12 18 9 rfl).2.2.2.2.2.2.1⟩

/-- C5.  `complete_ride` is total and unguarded: it succeeds on a ride of any
current status, and applying it twice double-counts every statistic — ride
count up by two, earnings up by both final fares, mileage up by both actual
distances, and the passenger's trip count up by two. -/
theorem ride_complete_double_counts (ride : Ride)
    (d1 f1 r1 : ℚ) (t1 : ℕ) (d2 f2 r2 : ℚ) (t2 : ℕ) :
    ((ride.complete d1 f1 r1 t1).complete d2 f2 r2 t2).status = "Completed" ∧
    ((ride.complete d1 f1 r1 t1).complete d2 f2 r2 t2).driver.total_rides
      = ride.driver.total_rides + 2 ∧
    ((ride.complete d1 f1 r1 t1).complete d2 f2 r2 t2).driver.earnings
      = ride.driver.earnings + (f1 + f2) ∧
    ((ride.complete d1 f1 r1 t1).complete d2 f2 r2 t2).driver.vehicle.mileage
      = ride.driver.vehicle.mileage + (d1 + d2) ∧
    ((ride.complete d1 f1 r1 t1).complete d2 f2 r2 t2).request.passenger.total_rides
      = ride.request.passenger.total_rides + 2 := by
  refine ⟨rfl, rfl, ?_, ?_, rfl⟩
  · show ride.driver.earnings + f1 + f2 = ride.driver.earnings + (f1 + f2)
    ring
  · show ride.driver.vehicle.mileage + d1 + d2 = ride.driver.vehicle.mileage + (d1 + d2)
    ring

/-- Updating the element right after a prefix rewrites exactly that element. -/
theorem modifyAt_append {α : Type} (f : α → α) (pre : List α) (x : α) (post : List α) :
    modifyAt f (pre ++ x :: post) pre.length = pre ++ f x :: post := by
  induction pre with
  | nil => rfl
  | cons y ys ih => simp [modifyAt, ih]

/-- C10.  `complete_ride` freezes the ride's stored fare and estimated
distance at their assignment-time values; the final fare goes only to the
driver's earnings, so the analytics total sums the assignment-time fares of
completed rides: the completed ride contributes its stored fare, not the final
fare passed to `complete_ride`. -/
theorem analytics_totals_estimated_fares (s : ServiceState) (pre post : List Ride) (r : Ride)
    (h : s.rides = pre ++ r :: post) (rating actual_distance final_fare : ℚ) (now : ℕ) :
    (s.complete_ride pre.length rating actual_distance final_fare now).rides
      = pre ++ r.complete actual_distance final_fare rating now :: post ∧
    (r.complete actual_distance final_fare rating now).fare = r.fare ∧
    (r.complete actual_distance final_fare rating now).estimated_distance
      = r.estimated_distance ∧
    (r.complete actual_distance final_fare rating now).driver.earnings
      = r.driver.earnings + final_fare ∧
    ((s.complete_ride pre.length rating actual_distance final_fare now).generate_simple_analytics).total_fare
      = ((pre.filter (fun x => x.status == "Completed")).map (fun x => x.fare)).sum
        + r.fare
        + ((post.filter (fun x => x.status == "Completed")).map (fun x => x.fare)).sum := by
  have hrides : (s.complete_ride pre.length rating actual_distance final_fare now).rides
      = pre ++ r.complete actual_distance final_fare rating now :: post := by
    unfold ServiceState.complete_ride
    rw [h, modifyAt_append]
  refine ⟨hrides, rfl, rfl, rfl, ?_⟩
  unfold ServiceState.generate_simple_analytics
  rw [hrides]
  have hstatus : ((r.complete actual_distance final_fare rating now).status == "Completed") = true := by
    rfl
  simp [List.filter_append, List.filter_cons, hstatus]
  show _ + ((r.complete actual_distance final_fare rating now).fare + _) = _
  have hfare : (r.complete actual_distance final_fare rating now).fare = r.fare := rfl
  rw [hfare]
  ring

/-- Witness for the analytics theorem on a one-ride service state. -/
theorem analytics_totals_estimated_fares_witness :
    ({ drivers := [], passengers := [], requests := [], rides := [sampleRide] } : ServiceState).rides
      = [] ++ sampleRide :: [] ∧
    (sampleRide.complete 5 19 4 8).fare = sampleRide.fare ∧
    (({ drivers := [], passengers := [], requests := [], rides := [sampleRide] } : ServiceState).complete_ride
        (List.length ([] : List Ride)) 4 5 19 8).generate_simple_analytics.total_fare
      = ((([] : List Ride).filter (fun x => x.status == "Completed")).map (fun x => x.fare)).sum
        + sampleRide.fare
        + ((([] : List Ride).filter (fun x => x.status == "Completed")).map (fun x => x.fare)).sum := by
  refine ⟨rfl, ?_, ?_⟩
  · exact (analytics_totals_estimated_fares
      { drivers := [], passengers := [], requests := [], rides := [sampleRide] }
      [] [] sampleRide rfl 4 5 19 8).2.1
  · exact (analytics_totals_estimated_fares
      { drivers := [], passengers := [], requests := [], rides := [sampleRide] }
      [] [] sampleRide rfl 4 5 19 8).2.2.2.2

/-- One unfolding step of the nearest-driver scan. -/
theorem nearestLoop_cons (pickup : Location) (x : Driver) (rest : List Driver)
    (best : Option Driver) (m : EReal) :
    nearestLoop pickup (x :: rest) (best, m) =
      if ((calculate_distance x.current_location pickup : ℝ) : EReal) < m then
        nearestLoop pickup rest
          (some x, ((calculate_distance x.current_location pickup : ℝ) : EReal))
      else nearestLoop pickup rest (best, m) := rfl

/-- One unfolding step of the optimized-matching scan. -/
theorem optimizedLoop_cons (pickup : Location) (x : Driver) (rest : List Driver)
    (best : Option Driver) (m : EReal) :
    optimizedLoop pickup (x :: rest) (best, m) =
      if ((calculate_distance x.current_location pickup / AVG_SPEED_KM_PER_MIN : ℝ) : EReal)
          < m then
        optimizedLoop pickup rest
          (some x, ((calculate_distance x.current_location pickup / AVG_SPEED_KM_PER_MIN : ℝ) : EReal))
      else optimizedLoop pickup rest (best, m) := rfl

/-- Invariant of the nearest-driver scan started on a current best `b`: it
returns the first scanned driver that strictly improves on everything before
it, together with that driver's distance as the accumulated minimum. -/
theorem nearestLoop_spec (pickup : Location) (xs : List Driver) (b : Driver) :
    ∃ r, nearestLoop pickup xs
          (some b, ((calculate_distance b.current_location pickup : ℝ) : EReal))
        = (some r, ((calculate_distance r.current_location pickup : ℝ) : EReal)) ∧
      ((r = b ∧ ∀ y ∈ xs,
          calculate_distance b.current_location pickup
            ≤ calculate_distance y.current_location pickup) ∨
        (∃ pre post, xs = pre ++ r :: post ∧
          calculate_distance r.current_location pickup
            < calculate_distance b.current_location pickup ∧
          (∀ y ∈ pre, calculate_distance r.current_location pickup
            < calculate_distance y.current_location pickup) ∧
          (∀ y ∈ post, calculate_distance r.current_location pickup
            ≤ calculate_distance y.current_location pickup))) := by
  induction xs generalizing b with
  | nil => exact ⟨b, rfl, Or.inl ⟨rfl, by simp⟩⟩
  | cons x rest ih =>
    by_cases hx : calculate_distance x.current_location pickup
        < calculate_distance b.current_location pickup
    · obtain ⟨r, hr, hcase⟩ := ih x
      refine ⟨r, ?_, ?_⟩
      · rw [nearestLoop_cons, if_pos (by exact_mod_cast hx)]
        exact hr
      · rcases hcase with ⟨rfl, hall⟩ | ⟨pre, post, hsplit, hlt, hpre, hpost⟩
        · exact Or.inr ⟨[], rest, rfl, hx, by simp, hall⟩
        · refine Or.inr ⟨x :: pre, post, by simp [hsplit], lt_trans hlt hx, ?_, hpost⟩
          intro y hy
          rcases List.mem_cons.1 hy with rfl | hy
          · exact hlt
          · exact hpre y hy
    · obtain ⟨r, hr, hcase⟩ := ih b
      refine ⟨r, ?_, ?_⟩
      · rw [nearestLoop_cons, if_neg (by simpa [EReal.coe_lt_coe_iff] using hx)]
        exact hr
      · rcases hcase with ⟨rfl, hall⟩ | ⟨pre, post, hsplit, hlt, hpre, hpost⟩
        · refine Or.inl ⟨rfl, ?_⟩
          intro y hy
          rcases List.mem_cons.1 hy with rfl | hy
          · exact le_of_not_lt hx
          · exact hall y hy
        · refine Or.inr ⟨x :: pre, post, by simp [hsplit], hlt, ?_, hpost⟩
          intro y hy
          rcases List.mem_cons.1 hy with rfl | hy
          · exact lt_of_lt_of_le hlt (le_of_not_lt hx)
          · exact hpre y hy

/-- Evaluation of `find_nearest_driver` on a state with at least one available
driver: it returns the first driver of the available list attaining the
minimal distance to the pickup, paired with that distance. -/
theorem find_nearest_spec (drivers : List Driver) (pickup : Location)
    (h : drivers.filter (·.is_available) ≠ []) :
    ∃ r pre post,
      find_nearest_driver drivers pickup
        = .ok (r, calculate_distance r.current_location pickup) ∧
      drivers.filter (·.is_available) = pre ++ r :: post ∧
      (∀ y ∈ pre, calculate_distance r.current_location pickup
        < calculate_distance y.current_location pickup) ∧
      (∀ y ∈ post, calculate_distance r.current_location pickup
        ≤ calculate_distance y.current_location pickup) := by
  obtain ⟨x, rest, hxs⟩ : ∃ x rest, drivers.filter (·.is_available) = x :: rest := by
    cases hcase : drivers.filter (·.is_available) with
    | nil => exact absurd hcase h
    | cons x rest => exact ⟨x, rest, rfl⟩
  obtain ⟨r, hr, hcase⟩ := nearestLoop_spec pickup rest x
  have heval : find_nearest_driver drivers pickup
      = .ok (r, calculate_distance r.current_location pickup) := by
    unfold find_nearest_driver
    simp only [hxs]
    rw [if_neg (by simp)]
    rw [nearestLoop_cons, if_pos (EReal.coe_lt_top _), hr]
    simp [EReal.toReal_coe]
  rcases hcase with ⟨rfl, hall⟩ | ⟨pre, post, hsplit, hlt, hpre, hpost⟩
  · exact ⟨r, [], rest, heval, hxs, by simp, hall⟩
  · refine ⟨r, x :: pre, post, heval, by rw [hxs]; simp [hsplit], ?_, hpost⟩
    intro y hy
    rcases List.mem_cons.1 hy with rfl | hy
    · exact hlt
    · exact hpre y hy

/-- The two scans run in lockstep: from matching accumulators (the optimized
one carrying `distance / AVG_SPEED_KM_PER_MIN`) they select the same driver. -/
theorem loops_agree (pickup : Location) (xs : List Driver) (b : Driver) :
    ∃ r, nearestLoop pickup xs
          (some b, ((calculate_distance b.current_location pickup : ℝ) : EReal))
        = (some r, ((calculate_distance r.current_location pickup : ℝ) : EReal)) ∧
      optimizedLoop pickup xs
          (some b, ((calculate_distance b.current_location pickup / AVG_SPEED_KM_PER_MIN : ℝ) : EReal))
        = (some r, ((calculate_distance r.current_location pickup / AVG_SPEED_KM_PER_MIN : ℝ) : EReal)) := by
  have hA : (0 : ℝ) < AVG_SPEED_KM_PER_MIN := by norm_num [AVG_SPEED_KM_PER_MIN]
  induction xs generalizing b with
  | nil => exact ⟨b, rfl, rfl⟩
  | cons x rest ih =>
    by_cases hx : calculate_distance x.current_location pickup
        < calculate_distance b.current_location pickup
    · obtain ⟨r, h1, h2⟩ := ih x
      refine ⟨r, ?_, ?_⟩
      · rw [nearestLoop_cons, if_pos (by exact_mod_cast hx)]
        exact h1
      · rw [optimizedLoop_cons,
          if_pos (by exact_mod_cast (div_lt_div_iff_of_pos_right hA).2 hx)]
        exact h2
    · obtain ⟨r, h1, h2⟩ := ih b
      refine ⟨r, ?_, ?_⟩
      · rw [nearestLoop_cons, if_neg (by simpa [EReal.coe_lt_coe_iff] using hx)]
        exact h1
      · rw [optimizedLoop_cons, if_neg ?hne]
        · exact h2
        case hne =>
          rw [EReal.coe_lt_coe_iff, div_lt_div_iff_of_pos_right hA]
          exact hx

/-- The optimized matching variant is extensionally the plain nearest-distance
search: same selected driver, same returned distance, same failure. -/
theorem optimized_eq_nearest (drivers : List Driver) (request : RideRequest) :
    optimized_driver_matching drivers request
      = find_nearest_driver drivers request.pickup_loc := by
  cases hcase : drivers.filter (·.is_available) with
  | nil =>
    unfold optimized_driver_matching find_nearest_driver
    simp [hcase]
  | cons x rest =>
    unfold optimized_driver_matching find_nearest_driver
    simp only [hcase]
    rw [if_neg (by simp), if_neg (by simp)]
    rw [nearestLoop_cons, if_pos (EReal.coe_lt_top _),
      optimizedLoop_cons, if_pos (EReal.coe_lt_top _)]
    obtain ⟨r, h1, h2⟩ := loops_agree request.pickup_loc rest x
    rw [h1, h2]
    simp [EReal.toReal_coe]

/-- C2.  With at least one available driver, the matching engine — in both its
nearest-distance and optimized arrival-time forms — selects the available
driver with the strictly smallest haversine distance to the pickup, and on
ties the first such driver in collection order: every available driver before
the selected one is strictly farther, every one after it is at least as far. -/
theorem matching_selects_first_nearest (drivers : List Driver) (request : RideRequest)
    (h : drivers.filter (·.is_available) ≠ []) :
    ∃ r pre post,
      find_nearest_driver drivers request.pickup_loc
        = .ok (r, calculate_distance r.current_location request.pickup_loc) ∧
      optimized_driver_matching drivers request
        = .ok (r, calculate_distance r.current_location request.pickup_loc) ∧
      drivers.filter (·.is_available) = pre ++ r :: post ∧
      (∀ y ∈ pre, calculate_distance r.current_location request.pickup_loc
        < calculate_distance y.current_location request.pickup_loc) ∧
      (∀ y ∈ post, calculate_distance r.current_location request.pickup_loc
        ≤ calculate_distance y.current_location request.pickup_loc) := by
  obtain ⟨r, pre, post, h1, h2, h3, h4⟩ := find_nearest_spec drivers request.pickup_loc h
  exact ⟨r, pre, post, h1, (optimized_eq_nearest drivers request).trans h1, h2, h3, h4⟩

/-- Witness for the matching theorem on a one-available-driver state. -/
theorem matching_selects_first_nearest_witness :
    [sampleFreeDriver].filter (·.is_available) ≠ [] ∧
    (∃ r pre post,
      find_nearest_driver [sampleFreeDriver] sampleRequest.pickup_loc
        = .ok (r, calculate_distance r.current_location sampleRequest.pickup_loc) ∧
      optimized_driver_matching [sampleFreeDriver] sampleRequest
        = .ok (r, calculate_distance r.current_location sampleRequest.pickup_loc) ∧
      [sampleFreeDriver].filter (·.is_available) = pre ++ r :: post ∧
      (∀ y ∈ pre, calculate_distance r.current_location sampleRequest.pickup_loc
        < calculate_distance y.current_location sampleRequest.pickup_loc) ∧
      (∀ y ∈ post, calculate_distance r.current_location sampleRequest.pickup_loc
        ≤ calculate_distance y.current_location sampleRequest.pickup_loc)) :=
  ⟨by decide, matching_selects_first_nearest [sampleFreeDriver] sampleRequest (by decide)⟩

/-- C8.  The optimized matching variant (minimizing arrival time at speed
`AVG_SPEED_KM_PER_MIN`) and the plain nearest-distance variant are
extensionally equal functions of the driver collection and the request. -/
theorem optimized_matching_eq_nearest_search (drivers : List Driver) (request : RideRequest) :
    optimized_driver_matching drivers request
      = find_nearest_driver drivers request.pickup_loc :=
  optimized_eq_nearest drivers request

/-- C1.  When no driver is available, `assign_ride` fails with the
no-driver-found error and returns the state completely unchanged: no
collection, no request status and no driver field is mutated. -/
theorem assign_ride_no_driver_is_pure_failure (s : ServiceState) (request : RideRequest)
    (rideId now : ℕ) (h : ∀ d ∈ s.drivers, d.is_available = false) :
    s.assign_ride request rideId now = (s, .error .noDriverFound) := by
  have hfilter : s.drivers.filter (·.is_available) = [] := by
    rw [List.filter_eq_nil_iff]
    intro d hd
    simp [h d hd]
  unfold ServiceState.assign_ride find_nearest_driver
  simp [hfilter]

/-- Witness for the failed-assignment theorem on a concrete state with a
single unavailable driver. -/
theorem assign_ride_no_driver_is_pure_failure_witness :
    (∀ d ∈ sampleBusyState.drivers, d.is_available = false) ∧
    sampleBusyState.assign_ride sampleRequest 31 5
      = (sampleBusyState, .error .noDriverFound) :=
  ⟨by decide, assign_ride_no_driver_is_pure_failure sampleBusyState sampleRequest 31 5 (by decide)⟩

/-- Witness for the request-validation theorem: endpoints differing only in
longitude are accepted and the Pending request is stored. -/
theorem request_ride_rejects_identical_endpoints_witness :
    (({ latitude := 41, longitude := 29 } : Location) = { latitude := 41, longitude := 30 }
      → False) ∧
    ServiceState.empty.request_ride samplePassenger { latitude := 41, longitude := 29 }
        { latitude := 41, longitude := 30 } 3 4
      = ({ ServiceState.empty with
            requests := ServiceState.empty.requests ++ [RideRequest.new 3 samplePassenger
              { latitude := 41, longitude := 29 } { latitude := 41, longitude := 30 } 4] },
          .ok (RideRequest.new 3 samplePassenger { latitude := 41, longitude := 29 }
            { latitude := 41, longitude := 30 } 4)) :=
  ⟨by decide,
    (request_ride_rejects_identical_endpoints ServiceState.empty samplePassenger
      { latitude := 41, longitude := 29 } { latitude := 41, longitude := 30 } 3 4).2.2.1
      (by decide)⟩
